import Mathlib

/-!
Verification of the cz-telemetry framed-packet decoder.

The repository has two near-duplicate decoder implementations:
`SerialWorker` in `main.py` and `Telemetry` in `src/telemetry/telemetry.py`.
Both scan a byte stream for a start marker 0x02, accumulate a fixed 19-byte
packet body, validate an end marker 0x03 and an additive checksum, and emit
decoded records.  We embed the byte-level decode loop, the two `read_exact`
timeout helpers, the constructor keyword surfaces, the stop request and the
synthetic (fake) generator, and prove or refute the spec's claims about them.

Modelling conventions:
  * bytes are `Nat` values (real bytes are `0..255`; decoding applies `% 256`
    exactly where the wire format forces byte semantics);
  * 32-bit floats are represented by their little-endian bit patterns
    (`struct.unpack` is injective on bit patterns and the spec compares
    floats "by exact bit pattern");
  * a decoder run is modelled on the full finite byte sequence the source
    delivers before end-of-stream / stop; a blocking read that finds the
    sequence exhausted is the model of a read timeout.  Real-time behaviour
    of the `read_exact` helpers is modelled separately by an explicit poll
    trace carrying the elapsed time at each poll.
-/

/-- Constant `START_MARKER = b"\x02"` (main.py line 31, telemetry.py line 13). -/
def START_MARKER : Nat := 0x02

/-- Constant `END_MARKER = b"\x03"` (main.py line 32, telemetry.py line 14). -/
def END_MARKER : Nat := 0x03

/-- Constant `PACKET_SIZE = struct.calcsize("<H I f f f B")` = 2+4+4+4+4+1 = 19. -/
def PACKET_SIZE : Nat := 19

/-- Checksum helper `SerialWorker.compute_checksum` (main.py 56-57) and
`Telemetry._compute_checksum` (telemetry.py 37-38), which are identical:
`sum(packet_bytes[:-1]) & 0xFF`. -/
def compute_checksum (packet_bytes : List Nat) : Nat :=
  packet_bytes.dropLast.sum % 256

/-- The decoded unit of data, the dict built from
`struct.unpack(TELEMETRY_PACKET_FORMAT, packet_bytes)` (main.py 140-150,
telemetry.py 106-116).  Float fields carry the 32-bit little-endian bit
pattern of the wire bytes. -/
structure TelemetryRecord where
  header : Nat
  timestamp : Nat
  temperature : Nat
  pressure : Nat
  altitude : Nat
  crc : Nat
deriving DecidableEq, Repr

/-- Little-endian value of a byte list (each byte reduced mod 256), the
reading `struct.unpack` performs on each field's bytes. -/
def leWord (bs : List Nat) : Nat :=
  bs.foldr (fun b acc => b % 256 + 256 * acc) 0

/-- Little-endian byte list of width `w` for a value `v`, the writing
`struct.pack` performs for each field. -/
def leBytes : Nat → Nat → List Nat
  | 0, _ => []
  | w + 1, v => v % 256 :: leBytes w (v / 256)

/-- Unpacking `struct.unpack("<H I f f f B", packet_bytes)` on the 19-byte body:
u16 header, u32 timestamp, three f32 bit patterns, u8 crc. -/
def unpackTelemetry (body : List Nat) : TelemetryRecord :=
  { header := leWord (body.take 2)
    timestamp := leWord ((body.drop 2).take 4)
    temperature := leWord ((body.drop 6).take 4)
    pressure := leWord ((body.drop 10).take 4)
    altitude := leWord ((body.drop 14).take 4)
    crc := ((body.drop 18).headD 0) % 256 }

/-- Packing `struct.pack("<H I f f f B", ...)`: the 19-byte wire body of a record. -/
def packTelemetry (r : TelemetryRecord) : List Nat :=
  leBytes 2 r.header ++ leBytes 4 r.timestamp ++ leBytes 4 r.temperature ++
    leBytes 4 r.pressure ++ leBytes 4 r.altitude ++ [r.crc % 256]

/-- The diagnostic conditions the decoder loop logs (main.py 97, 114, 119,
122, 132; telemetry.py 62, 80, 85, 88, 98). -/
inductive Diagnostic where
  | timeoutBody
  | timeoutEnd
  | badEndMarker
  | crcMismatch
  | openFailure
deriving DecidableEq, Repr

/-- What the decoder delivers outward: a `new_data`/`telemetry` signal
carrying a record, a logged diagnostic, or the `finished` signal. -/
inductive Output where
  | record (r : TelemetryRecord)
  | diag (d : Diagnostic)
  | finished
deriving DecidableEq, Repr

/-- The serial-path loop of `SerialWorker.run` (main.py 104-154) on the
finite byte sequence the source delivers, with an explicit fuel argument
(every recursive call strictly shortens the list, so any fuel of at least
the list's length computes the loop; `decodeLoop` below instantiates it).
One iteration: read one byte, skip it unless it is `START_MARKER`; then
`read_exact` the 19-byte body (a short stream is the cumulative-timeout
`TimeoutError` path, which abandons the frame and resumes scanning with
nothing replayed); then read one end byte (none available is the
end-marker-timeout path, not `END_MARKER` is the bad-end-marker path, and
in both the body and that byte are discarded); then compare
`packet_bytes[-1]` with `compute_checksum(packet_bytes)` and either log a
CRC mismatch or emit the unpacked record. -/
def decodeLoopF : Nat → List Nat → List Output
  | 0, _ => []
  | _ + 1, [] => []
  | fuel + 1, b :: rest =>
    if b ≠ START_MARKER then
      decodeLoopF fuel rest
    else if rest.length < PACKET_SIZE then
      [Output.diag Diagnostic.timeoutBody]
    else
      let packet_bytes := rest.take PACKET_SIZE
      match rest.drop PACKET_SIZE with
      | [] => [Output.diag Diagnostic.timeoutEnd]
      | endb :: rest3 =>
        if endb ≠ END_MARKER then
          Output.diag Diagnostic.badEndMarker :: decodeLoopF fuel rest3
        else if packet_bytes.getLast?.getD 0 ≠ compute_checksum packet_bytes then
          Output.diag Diagnostic.crcMismatch :: decodeLoopF fuel rest3
        else
          Output.record (unpackTelemetry packet_bytes) :: decodeLoopF fuel rest3

/-- The decode loop on a byte sequence (fuel instantiated to the length,
which always suffices). -/
def decodeLoop (input : List Nat) : List Output :=
  decodeLoopF input.length input

/-- Model of `SerialWorker.run` on the serial path (main.py 93-165): `none` models
`serial.Serial(...)` raising in the constructor, upon which the failure is
logged, `_running` is cleared and only `finished` is emitted — the open is
never retried (lines 96-100).  On a successful open the decode loop runs
over the delivered bytes and `finished` is emitted in the `finally` block
(line 165). -/
def runWorker : Option (List Nat) → List Output
  | none => [Output.diag Diagnostic.openFailure, Output.finished]
  | some input => decodeLoop input ++ [Output.finished]

/-- The records among a run's outputs. -/
def recordsOf (out : List Output) : List TelemetryRecord :=
  out.filterMap fun o =>
    match o with
    | Output.record r => some r
    | _ => none

/-- The diagnostics among a run's outputs. -/
def diagsOf (out : List Output) : List Diagnostic :=
  out.filterMap fun o =>
    match o with
    | Output.diag d => some d
    | _ => none

/-- One synthetic record of the fake branch of `SerialWorker.run`
(main.py 78-91): header and crc are the constants `0xABCD` and `0x00`;
timestamp and the three randomized field values are parameters. -/
def fakeTelemetry (timestamp temperature pressure altitude : Nat) :
    TelemetryRecord :=
  { header := 0xABCD
    timestamp := timestamp
    temperature := temperature
    pressure := pressure
    altitude := altitude
    crc := 0x00 }

/-- The fake branch of `SerialWorker.run` over a finite list of sampled
(timestamp, temperature, pressure, altitude) tuples: it emits one
`new_data` record per sample and `finished` when stopped. -/
def runFake (samples : List (Nat × Nat × Nat × Nat)) : List Output :=
  (samples.map fun s =>
    Output.record (fakeTelemetry s.1 s.2.1 s.2.2.1 s.2.2.2)) ++
    [Output.finished]

/-- Outcome of a `read_exact`-style helper. `timedOut` is a raised
`TimeoutError`; `exhausted` means the finite poll trace ran out while the
helper was still looping (the code would keep polling). -/
inductive ReadOutcome where
  | completed (bs : List Nat)
  | timedOut
  | exhausted (buf : List Nat)
deriving DecidableEq, Repr

/-- Model of `SerialWorker.read_exact` (main.py 59-71) over a poll trace: each trace
entry is the chunk `ser.read` returned together with the elapsed time
`time.time() - start` at that poll — elapsed since the helper was entered,
so the deadline is cumulative across polls, not per call.  An empty chunk
with the cumulative elapsed time at or past `ser.timeout` raises
`TimeoutError`.  `_running` is taken true throughout (no stop request). -/
def read_exact (timeout n : Nat) (buf : List Nat) :
    List (List Nat × Nat) → ReadOutcome
  | [] => if buf.length < n then ReadOutcome.exhausted buf
          else ReadOutcome.completed buf
  | (chunk, t) :: rest =>
    if n ≤ buf.length then ReadOutcome.completed buf
    else if chunk.isEmpty then
      if timeout ≤ t then ReadOutcome.timedOut
      else read_exact timeout n buf rest
    else read_exact timeout n (buf ++ chunk) rest

/-- Model of `Telemetry._read_exact` (telemetry.py 40-53) over the same poll traces:
on an empty chunk past the deadline it only calls `logger.error` and keeps
looping — no exception is raised and the loop is left only when the buffer
fills or `_running` is cleared.  `_running` is taken true throughout. -/
def read_exact_tel (timeout n : Nat) (buf : List Nat) :
    List (List Nat × Nat) → ReadOutcome
  | [] => if buf.length < n then ReadOutcome.exhausted buf
          else ReadOutcome.completed buf
  | (chunk, _) :: rest =>
    if n ≤ buf.length then ReadOutcome.completed buf
    else if chunk.isEmpty then
      read_exact_tel timeout n buf rest
    else read_exact_tel timeout n (buf ++ chunk) rest

/-- The cross-thread state `stop` touches: the `_running` flag and whether
an open serial handle is held. -/
structure WorkerState where
  running : Bool
  serOpen : Bool
deriving DecidableEq, Repr

/-- Model of `SerialWorker.stop` (main.py 167-174) and `Telemetry.stop`
(telemetry.py 140-148): clear `_running`, close the port if it is open
(closing makes `is_open` false), and swallow any exception from the close —
the caller never sees a raise, so the model is a total function. -/
def stop (s : WorkerState) : WorkerState :=
  { s with running := false, serOpen := false }

/-- Keyword parameters of `Telemetry.__init__` (telemetry.py 27): `port`,
`baud`, `timeout` — there is no `fake` parameter. -/
def Telemetry_init_params : List String := ["port", "baud", "timeout"]

/-- Keyword parameters of `SerialWorker.__init__` (main.py 45-47): `port`,
`baud`, `timeout`, `fake`. -/
def SerialWorker_init_params : List String :=
  ["port", "baud", "timeout", "fake"]

/-- Python keyword-argument binding: a call succeeds exactly when every
keyword used is a declared parameter; otherwise it raises `TypeError`
("unexpected keyword argument"). -/
def callInit (params kwargs : List String) : Except String Unit :=
  if kwargs.all params.contains then Except.ok ()
  else Except.error "TypeError"

/-- The 19-byte body of the well-formed concrete frame for header=0xABCD,
timestamp=1000, temperature=1.0f (bits 0x3F800000), pressure=0.0f,
altitude=0.0f, with the correct additive checksum 0x22. -/
def goodBody : List Nat :=
  [0xCD, 0xAB, 0xE8, 0x03, 0x00, 0x00, 0x00, 0x00, 0x80, 0x3F,
   0x00, 0x00, 0x00, 0x00, 0x00, 0x00, 0x00, 0x00, 0x22]

/-- The byte sequence exactly as the spec's concrete scenario lists it:
`02 CD AB E8 03 00 00 00 00 00 80 3F 00 00 00 00 00 00 00 00 <crc> 03`
with `<crc> = 0x22`, the sum of the 18 bytes that precede it (beyond the
first 19, which fill the body) reduced mod 256.  Note it has five `00`
bytes between `03` and `80` — one more than the encoding of
timestamp=1000 followed by temperature=1.0f produces. -/
def specScenarioBytes : List Nat :=
  [0x02, 0xCD, 0xAB, 0xE8, 0x03, 0x00, 0x00, 0x00, 0x00, 0x00, 0x80, 0x3F,
   0x00, 0x00, 0x00, 0x00, 0x00, 0x00, 0x00, 0x00, 0x22, 0x03]

/-- The same scenario with the spurious extra `00` removed: a well-formed
21-byte frame. -/
def correctedScenarioBytes : List Nat :=
  START_MARKER :: goodBody ++ [END_MARKER]

/-! ### Basic lemmas about the decode loop -/

theorem decodeLoopF_fuel_irrel (f1 : Nat) :
    ∀ (f2 : Nat) (l : List Nat), l.length ≤ f1 → l.length ≤ f2 →
      decodeLoopF f1 l = decodeLoopF f2 l := by
  induction f1 with
  | zero =>
    intro f2 l h1 _
    have hl : l = [] := List.length_eq_zero.mp (Nat.le_zero.mp h1)
    subst hl
    cases f2 <;> rfl
  | succ f ih =>
    intro f2 l h1 h2
    cases l with
    | nil => cases f2 <;> rfl
    | cons b rest =>
      cases f2 with
      | zero => simp at h2
      | succ f2' =>
        simp only [List.length_cons, Nat.add_le_add_iff_right] at h1 h2
        simp only [decodeLoopF]
        by_cases hb : b ≠ START_MARKER
        · simp only [if_pos hb]
          exact ih f2' rest h1 h2
        · simp only [if_neg hb]
          by_cases hlen : rest.length < PACKET_SIZE
          · simp only [if_pos hlen]
          · simp only [if_neg hlen]
            cases hdrop : rest.drop PACKET_SIZE with
            | nil => rfl
            | cons endb rest3 =>
              have hr3 : rest3.length < rest.length := by
                have := congrArg List.length hdrop
                simp only [List.length_drop, List.length_cons] at this
                omega
              have h1' : rest3.length ≤ f := by omega
              have h2' : rest3.length ≤ f2' := by omega
              by_cases hend : endb ≠ END_MARKER
              · simp only [if_pos hend, ih f2' rest3 h1' h2']
              · simp only [if_neg hend]
                by_cases hcrc : (rest.take PACKET_SIZE).getLast?.getD 0 ≠
                    compute_checksum (rest.take PACKET_SIZE)
                · simp only [if_pos hcrc, ih f2' rest3 h1' h2']
                · simp only [if_neg hcrc, ih f2' rest3 h1' h2']

theorem decodeLoopF_eq_decodeLoop (f : Nat) (l : List Nat)
    (h : l.length ≤ f) : decodeLoopF f l = decodeLoop l :=
  decodeLoopF_fuel_irrel f l.length l h (Nat.le_refl _)

theorem decodeLoop_nil : decodeLoop [] = [] := rfl

theorem decodeLoop_skip (b : Nat) (rest : List Nat) (hb : b ≠ START_MARKER) :
    decodeLoop (b :: rest) = decodeLoop rest := by
  simp only [decodeLoop, List.length_cons, decodeLoopF, if_pos hb]

theorem decodeLoop_short (rest : List Nat) (h : rest.length < PACKET_SIZE) :
    decodeLoop (START_MARKER :: rest) = [Output.diag Diagnostic.timeoutBody] := by
  simp only [decodeLoop, List.length_cons, decodeLoopF, ne_eq,
    not_true_eq_false, if_neg, if_pos h, ite_false]

theorem decodeLoop_noEnd (body : List Nat) (h : body.length = PACKET_SIZE) :
    decodeLoop (START_MARKER :: body) = [Output.diag Diagnostic.timeoutEnd] := by
  have hlt : ¬ body.length < PACKET_SIZE := by omega
  have hdrop : body.drop PACKET_SIZE = [] := by
    apply List.eq_nil_of_length_eq_zero
    simp [List.length_drop, h]
  simp only [decodeLoop, List.length_cons, decodeLoopF, ne_eq,
    not_true_eq_false, if_neg, if_pos, ite_false, hlt, hdrop]

theorem decodeLoop_frame (body : List Nat) (endb : Nat) (rest : List Nat)
    (h : body.length = PACKET_SIZE) :
    decodeLoop (START_MARKER :: body ++ endb :: rest) =
      (if endb ≠ END_MARKER then
        Output.diag Diagnostic.badEndMarker :: decodeLoop rest
      else if body.getLast?.getD 0 ≠ compute_checksum body then
        Output.diag Diagnostic.crcMismatch :: decodeLoop rest
      else
        Output.record (unpackTelemetry body) :: decodeLoop rest) := by
  have htail : ∃ t, body ++ endb :: rest = t := ⟨_, rfl⟩
  obtain ⟨tail, htail⟩ := htail
  rw [List.cons_append, htail]
  have hlen : ¬ tail.length < PACKET_SIZE := by
    rw [← htail]
    simp only [List.length_append, List.length_cons, h]
    omega
  have htake : tail.take PACKET_SIZE = body := by
    rw [← htail, ← h]
    exact List.take_left body (endb :: rest)
  have hdrop : tail.drop PACKET_SIZE = endb :: rest := by
    rw [← htail, ← h]
    exact List.drop_left body (endb :: rest)
  have hfuel : rest.length ≤ tail.length := by
    rw [← htail]
    simp only [List.length_append, List.length_cons]
    omega
  simp only [decodeLoop, List.length_cons, decodeLoopF, ne_eq,
    not_true_eq_false, if_neg, ite_false, hlen, htake, hdrop]
  rw [decodeLoopF_eq_decodeLoop _ _ hfuel]
  rfl

theorem decodeLoop_garbage (g rest : List Nat)
    (hg : ∀ b ∈ g, b ≠ START_MARKER) :
    decodeLoop (g ++ rest) = decodeLoop rest := by
  induction g with
  | nil => rfl
  | cons b g ih =>
    rw [List.cons_append, decodeLoop_skip b (g ++ rest) (hg b (by simp))]
    exact ih fun x hx => hg x (by simp [hx])

theorem decodeLoop_good_frame (body : List Nat) (rest : List Nat)
    (h : body.length = PACKET_SIZE)
    (hcrc : body.getLast?.getD 0 = compute_checksum body) :
    decodeLoop (START_MARKER :: body ++ END_MARKER :: rest) =
      Output.record (unpackTelemetry body) :: decodeLoop rest := by
  rw [decodeLoop_frame body END_MARKER rest h]
  simp [hcrc]

theorem decodeLoopF_output_cases (fuel : Nat) :
    ∀ (l : List Nat), ∀ o ∈ decodeLoopF fuel l,
      (∃ body, body.length = PACKET_SIZE ∧
        o = Output.record (unpackTelemetry body) ∧
        body.getLast?.getD 0 = compute_checksum body) ∨
      ∃ d, o = Output.diag d := by
  induction fuel with
  | zero =>
    intro l o ho
    simp [decodeLoopF] at ho
  | succ f ih =>
    intro l o ho
    cases l with
    | nil => simp [decodeLoopF] at ho
    | cons b rest =>
      simp only [decodeLoopF] at ho
      split at ho
      · exact ih rest o ho
      · split at ho
        · simp only [List.mem_singleton] at ho
          exact Or.inr ⟨_, ho⟩
        · split at ho
          · simp only [List.mem_singleton] at ho
            exact Or.inr ⟨_, ho⟩
          · split at ho
            · rcases List.mem_cons.mp ho with h | h
              · exact Or.inr ⟨_, h⟩
              · exact ih _ o h
            · split at ho
              · rcases List.mem_cons.mp ho with h | h
                · exact Or.inr ⟨_, h⟩
                · exact ih _ o h
              · rcases List.mem_cons.mp ho with h | h
                · next hlen _ _ hcrc =>
                  left
                  refine ⟨rest.take PACKET_SIZE, ?_, h, ?_⟩
                  · rw [List.length_take]
                    omega
                  · exact not_ne_iff.mp hcrc
                · exact ih _ o h

/-! ### Claim theorems -/

/-- C1: in `SerialWorker.read_exact` (main.py) a body accumulation that
does not complete within the read deadline — measured cumulatively across
polls — raises `TimeoutError`, which `run` turns into a logged timeout and
a return to start-marker scanning with nothing replayed.  In
`Telemetry._read_exact` (telemetry.py) the same stalled source only logs:
the helper never raises, so the `except TimeoutError` handler in
`Telemetry.run` is dead and the frame is never abandoned — for every
number `k` of polls past the deadline the helper is still looping (the
trace is exhausted with an empty buffer and no timeout outcome), where the
main.py helper times out at the first such poll. -/
theorem C1_body_timeout_divergence :
    (∀ k : Nat, read_exact_tel 1 PACKET_SIZE []
        (List.replicate k ([], 2)) = ReadOutcome.exhausted []) ∧
    (∀ rest, read_exact 1 PACKET_SIZE [] (([], 2) :: rest) =
        ReadOutcome.timedOut) := by
  constructor
  · intro k
    induction k with
    | zero => rfl
    | succ n ihn =>
      rw [List.replicate_succ]
      exact ihn
  · intro rest
    rfl

/-- C2: on any delivered byte sequence, every output of the serial run is
either a record unpacked from a 19-byte body whose trailing byte equals
the additive checksum of that body, or a diagnostic, or the completion
signal — and the completion signal is emitted exactly once.  All outputs
are values of the total `Output` type: no per-byte or per-frame error is
raised to the consumer. -/
theorem C2_consumer_sees_only_valid_records (input : List Nat) :
    (∀ o ∈ runWorker (some input),
      (∃ body, body.length = PACKET_SIZE ∧
        o = Output.record (unpackTelemetry body) ∧
        body.getLast?.getD 0 = compute_checksum body) ∨
      (∃ d, o = Output.diag d) ∨ o = Output.finished) ∧
    (runWorker (some input)).count Output.finished = 1 := by
  constructor
  · intro o ho
    simp only [runWorker, List.mem_append, List.mem_singleton] at ho
    rcases ho with ho | ho
    · rcases decodeLoopF_output_cases _ _ o ho with h | h
      · exact Or.inl h
      · exact Or.inr (Or.inl h)
    · exact Or.inr (Or.inr ho)
  · have h0 : (decodeLoop input).count Output.finished = 0 := by
      rw [List.count_eq_zero]
      intro hmem
      rcases decodeLoopF_output_cases _ _ _ hmem with ⟨body, _, h, _⟩ | ⟨d, h⟩ <;>
        simp at h
    simp [runWorker, List.count_append, h0]

/-- C2 witness: the classification instantiated on the concrete corrected
scenario stream. -/
theorem C2_consumer_witness :
    (∀ o ∈ runWorker (some correctedScenarioBytes),
      (∃ body, body.length = PACKET_SIZE ∧
        o = Output.record (unpackTelemetry body) ∧
        body.getLast?.getD 0 = compute_checksum body) ∨
      (∃ d, o = Output.diag d) ∨ o = Output.finished) ∧
    (runWorker (some correctedScenarioBytes)).count Output.finished = 1 :=
  C2_consumer_sees_only_valid_records correctedScenarioBytes

/-- C3: on a 19-byte body the computed checksum is the sum of the first 18
bytes (header, timestamp, temperature, pressure, altitude) mod 256 —
`sum(packet_bytes[:-1]) & 0xFF` with the last byte excluded. -/
theorem C3_checksum_is_sum_first18_mod256 (B : List Nat)
    (h : B.length = PACKET_SIZE) :
    compute_checksum B = (B.take 18).sum % 256 := by
  rw [compute_checksum, List.dropLast_eq_take, h]
  rfl

/-- C3 witness: the checksum equation evaluated on the all-ones body. -/
theorem C3_checksum_witness :
    (List.replicate PACKET_SIZE 1).length = PACKET_SIZE ∧
    compute_checksum (List.replicate PACKET_SIZE 1) =
      ((List.replicate PACKET_SIZE 1).take 18).sum % 256 :=
  ⟨by decide, C3_checksum_is_sum_first18_mod256 _ (by decide)⟩

/-- C4 counterexample: the byte sequence exactly as the spec lists it
(22 bytes — it contains one extra `00` between the timestamp and the
temperature encodings) makes the decoder fill its 19-byte body with the
last `00` in crc position, read the `<crc>` byte `0x22` where the end
marker is expected, and resynchronize: the decoder emits a bad-end-marker
diagnostic and zero records, not the claimed single record. -/
theorem C4_spec_bytes_yield_no_record :
    decodeLoop specScenarioBytes = [Output.diag Diagnostic.badEndMarker] ∧
    recordsOf (decodeLoop specScenarioBytes) = [] := by decide

/-- C4 as amended: with the spurious extra `00` removed the frame is the
21 bytes `02 CD AB E8 03 00 00 00 00 80 3F 00 00 00 00 00 00 00 00 22 03`
(crc `0x22` = sum of the first 18 body bytes mod 256) and the decoder
emits exactly one record with header 0xABCD, timestamp 1000, temperature
bits 0x3F800000 (1.0f), pressure bits 0 (0.0f), altitude bits 0 (0.0f). -/
theorem C4_corrected_scenario_one_record :
    decodeLoop correctedScenarioBytes =
      [Output.record ⟨0xABCD, 1000, 0x3F800000, 0, 0, 0x22⟩] ∧
    compute_checksum goodBody = 0x22 := by decide

/-- C5 counterexample, two concrete garbage+frame+garbage+frame streams:
on garbage `FF`/`07` the decoder emits exactly two records but not a
single diagnostic event — non-start garbage bytes are discarded silently
(main.py 108-109), so "at least one diagnostic event" is false on the
code; and on the garbage byte `02` the spurious start marker swallows the
first valid frame and only one record comes out, so "exactly two records"
for arbitrary garbage is also false. -/
theorem C5_garbage_produces_no_diagnostic :
    ((recordsOf (decodeLoop ([0xFF] ++ correctedScenarioBytes ++ [0x07] ++
        correctedScenarioBytes))).length = 2 ∧
      diagsOf (decodeLoop ([0xFF] ++ correctedScenarioBytes ++ [0x07] ++
        correctedScenarioBytes)) = []) ∧
    (recordsOf (decodeLoop ([0x02] ++ correctedScenarioBytes ++ [0xFF] ++
        correctedScenarioBytes))).length = 1 := by decide

/-- C5 as amended: for every stream of the shape garbage ++ valid frame ++
garbage ++ valid frame in which the garbage contains no start-marker
byte, the decoder emits exactly the two records and nothing else — zero
spurious records and zero diagnostics, the garbage being discarded
silently. -/
theorem C5_resync_two_records (g1 g2 body1 body2 : List Nat)
    (hg1 : ∀ b ∈ g1, b ≠ START_MARKER) (hg2 : ∀ b ∈ g2, b ≠ START_MARKER)
    (hb1 : body1.length = PACKET_SIZE)
    (hc1 : body1.getLast?.getD 0 = compute_checksum body1)
    (hb2 : body2.length = PACKET_SIZE)
    (hc2 : body2.getLast?.getD 0 = compute_checksum body2) :
    decodeLoop (g1 ++ (START_MARKER :: body1 ++ [END_MARKER]) ++
        g2 ++ (START_MARKER :: body2 ++ [END_MARKER])) =
      [Output.record (unpackTelemetry body1),
       Output.record (unpackTelemetry body2)] := by
  have h1 : g1 ++ (START_MARKER :: body1 ++ [END_MARKER]) ++
      g2 ++ (START_MARKER :: body2 ++ [END_MARKER]) =
      g1 ++ (START_MARKER :: body1 ++ END_MARKER ::
        (g2 ++ (START_MARKER :: body2 ++ END_MARKER :: []))) := by
    simp [List.append_assoc]
  rw [h1, decodeLoop_garbage _ _ hg1,
    decodeLoop_good_frame body1 _ hb1 hc1,
    decodeLoop_garbage _ _ hg2,
    decodeLoop_good_frame body2 [] hb2 hc2,
    decodeLoop_nil]

/-- C5 witness: the amended resynchronization statement on a concrete
stream (the 19-zero body is checksum-valid, its checksum being 0). -/
theorem C5_resync_witness :
    decodeLoop ([0xFF] ++ (START_MARKER :: List.replicate 19 0 ++
        [END_MARKER]) ++ [0x07] ++ (START_MARKER :: List.replicate 19 0 ++
        [END_MARKER])) =
      [Output.record (unpackTelemetry (List.replicate 19 0)),
       Output.record (unpackTelemetry (List.replicate 19 0))] :=
  C5_resync_two_records [0xFF] [0x07] (List.replicate 19 0)
    (List.replicate 19 0) (by decide) (by decide) (by decide) (by decide)
    (by decide) (by decide)

/-- C6: `SerialWorker.__init__` accepts exactly the keywords port, baud,
timeout and fake, but `Telemetry.__init__` has no `fake` parameter, so the
construction `Telemetry(port="COM15", fake=True)` performed at app.py
line 13 raises `TypeError` instead of succeeding — the claim's "fake is
recognized and succeeds" fails on the `Telemetry` decoder component. -/
theorem C6_fake_kwarg_divergence :
    callInit SerialWorker_init_params ["port", "baud", "timeout", "fake"] =
      Except.ok () ∧
    callInit Telemetry_init_params ["port", "fake"] =
      Except.error "TypeError" := ⟨rfl, rfl⟩

/-- C7: after a full 19-byte body, a nonempty next byte different from the
end marker produces a bad-end-marker diagnostic, and scanning resumes
strictly after that byte — the body and the mismatched byte are both
consumed, so the byte is never reinterpreted as a new start marker, even
when it equals 0x02 (the theorem's `e` may be `START_MARKER` itself). -/
theorem C7_bad_end_marker_discards (body : List Nat) (e : Nat)
    (rest : List Nat) (hb : body.length = PACKET_SIZE)
    (he : e ≠ END_MARKER) :
    decodeLoop (START_MARKER :: body ++ e :: rest) =
      Output.diag Diagnostic.badEndMarker :: decodeLoop rest := by
  rw [decodeLoop_frame body e rest hb, if_pos he]

/-- C7 witness: the mismatched end byte is `0x02 = START_MARKER` itself;
the body and that byte are discarded with one diagnostic. -/
theorem C7_bad_end_marker_witness :
    decodeLoop (START_MARKER :: List.replicate 19 1 ++ START_MARKER :: []) =
      Output.diag Diagnostic.badEndMarker :: decodeLoop [] :=
  C7_bad_end_marker_discards (List.replicate 19 1) START_MARKER []
    (by decide) (by decide)

/-- C8: when the transport open fails, `SerialWorker.run` logs the failure
(it is not raised to the caller), clears `_running`, emits `finished` and
returns — the run delivers exactly one open-failure diagnostic followed by
the completion signal, zero records, and contains no second open attempt
(`runWorker none` is a constant, not a retry loop). -/
theorem C8_open_failure_inert :
    runWorker none = [Output.diag Diagnostic.openFailure, Output.finished] ∧
    recordsOf (runWorker none) = [] ∧
    (runWorker none).getLast? = some Output.finished := by decide

/-- C9: `stop` clears `_running` and closes the port, swallowing any close
exception (the model is a total function, so no call raises); stopping a
stopped instance changes nothing, and stopping from any state — including
a completed run — lands in the one stopped state, so repeated stops have
no additional effect. -/
theorem C9_stop_idempotent (s : WorkerState) :
    stop (stop s) = stop s ∧ ∀ t : WorkerState, stop s = stop t := by
  constructor
  · rfl
  · intro t
    rfl

/-- C10: every record the fake branch emits has the constant header 0xABCD
and the constant crc 0, whatever the sampled timestamp and randomized
field values are; and the crc field does not in general satisfy the
additive checksum relation over the record's 19-byte encoding — already
for the all-zero sample the encoding's checksum is 0x78 ≠ 0. -/
theorem C10_fake_header_crc_constant :
    (∀ samples : List (Nat × Nat × Nat × Nat),
      ∀ r ∈ recordsOf (runFake samples), r.header = 0xABCD ∧ r.crc = 0) ∧
    compute_checksum (packTelemetry (fakeTelemetry 0 0 0 0)) ≠
      (fakeTelemetry 0 0 0 0).crc := by
  constructor
  · intro samples r hr
    simp only [runFake, recordsOf, List.filterMap_append,
      List.filterMap_cons, List.filterMap_nil, List.mem_append,
      List.filterMap_map, List.mem_filterMap, List.mem_map] at hr
    rcases hr with hr | hr
    · obtain ⟨s, _, hs⟩ := hr
      simp only [Function.comp] at hs
      cases hs
      exact ⟨rfl, rfl⟩
    · simp at hr
  · decide
